import Mathlib

/-!
Shallow embedding of the jira-sync repository (src/src/*.py) in Lean 4.

Conventions used throughout:
* Python `datetime` values are modelled as `Nat` instants (only ordering and
  equality of datetimes are ever used by the code under verification).
* Python `None` becomes `Option.none`; Python string truthiness (where the
  source relies on it) is modelled explicitly by `py_truthy`.
* Remote HTTP calls are modelled by oracle parameters: every fetch result the
  code consumes is an explicit argument, and every successful remote *write*
  is recorded in a `RemoteOp` trace.  A raised `JiraAPIError` is an
  `Except.error` carrying the message string.
* DynamoDB `put_item` is an upsert keyed by `sync_id`; the table is modelled
  as an association list.
-/

set_option autoImplicit false

namespace JiraSync

/-! ### Python semantics helpers -/

/-- The characters Python's `str.strip()` removes. -/
def py_is_space (c : Char) : Bool :=
  c = ' ' || c = '\t' || c = '\n' || c = '\r' || c = '\x0b' || c = '\x0c'

/-- Python `str.strip()`: drop leading and trailing whitespace. -/
def py_strip (s : String) : String :=
  String.mk (((s.data.dropWhile py_is_space).reverse.dropWhile py_is_space).reverse)

/-- Python truthiness of an optional string (`None` and `""` are falsy). -/
def py_truthy : Option String → Bool
  | none => false
  | some s => s != ""

/-- Helper for `py_in`: does `n` occur as a contiguous run inside the second
list? -/
def py_substr_aux (n : List Char) : List Char → Bool
  | [] => n.isEmpty
  | c :: t => n.isPrefixOf (c :: t) || py_substr_aux n t

/-- Python `needle in haystack` for strings (substring test). -/
def py_in (needle haystack : String) : Bool :=
  py_substr_aux needle.data haystack.data

/-- Python `s.startswith(pre)`. -/
def py_startswith (s pre : String) : Bool :=
  pre.data.isPrefixOf s.data

/-- Python `s.lower()` (per-character lowercasing). -/
def py_lower (s : String) : String :=
  String.mk (s.data.map Char.toLower)

/-! ### models.py -/

/-- `SyncDirection` enum from models.py. -/
inductive SyncDirection where
  | jira_1_to_2
  | jira_2_to_1
deriving DecidableEq, Repr

/-- `SyncStatus` enum from models.py. -/
inductive SyncStatus where
  | pending
  | in_progress
  | success
  | failed
  | conflict
deriving DecidableEq, Repr

/-- `JiraComment` model from models.py (datetimes as `Nat`). -/
structure JiraComment where
  id : String
  body : String
  author_name : String
  author_email : Option String
  created : Nat
  updated : Nat
  is_sync_comment : Bool
  original_author : Option String
  sync_source_id : Option String
deriving DecidableEq, Repr

/-- `JiraIssue` model from models.py.  Custom field values only ever flow
through equality tests and payload copies, so they are modelled as strings.
The `comments` list is omitted: no code path under verification reads it. -/
structure JiraIssue where
  key : String
  summary : String
  description : Option String
  issue_type : String
  status : String
  priority : String
  assignee : Option String
  reporter : String
  labels : List String
  components : List String
  fix_versions : List String
  custom_fields : List (String × String)
  created : Nat
  updated : Nat
  resolution : Option String
deriving DecidableEq, Repr

/-- `SyncRecord` model from models.py. -/
structure SyncRecord where
  sync_id : String
  jira_1_key : Option String
  jira_2_key : Option String
  status : SyncStatus
  last_sync_direction : Option SyncDirection
  last_sync_timestamp : Nat
  jira_1_last_updated : Option Nat
  jira_2_last_updated : Option Nat
  error_count : Nat
  last_error : Option String
  requires_manual_resolution : Bool
  conflict_details : Option String
deriving DecidableEq, Repr

/-- `CommentSyncRecord` model from models.py. -/
structure CommentSyncRecord where
  sync_id : String
  issue_key : String
  source_comment_id : String
  target_comment_id : Option String
  source_instance : Nat
  target_instance : Nat
  last_sync_timestamp : Nat
  sync_direction : SyncDirection
  status : SyncStatus
deriving DecidableEq, Repr

/-! ### jira_client.py — pure payload and marker functions -/

/-- One JSON value inside a create/update payload's `fields` object.  Each
constructor records the JSON shape the source builds for that field. -/
inductive FieldVal where
  | s : String → FieldVal
  | doc : String → FieldVal
  | name : String → FieldVal
  | email : String → FieldVal
  | strList : List String → FieldVal
  | nameList : List String → FieldVal
  | null : FieldVal
  | custom : String → FieldVal
  | project : String → FieldVal
deriving DecidableEq, Repr

/-- `JiraClient._is_sync_comment`: `body.strip().startswith("[JIRA-SYNC]")`. -/
def is_sync_comment (body : String) : Bool :=
  py_startswith (py_strip body) "[JIRA-SYNC]"

/-- `JiraClient.convert_to_update_payload`.  The source returns
`{"fields": update_fields} if update_fields else {}`; we return the
`update_fields` entry list directly, `[]` standing for the empty payload
(`payload.get("fields")` is truthy iff the list is nonempty). -/
def convert_to_update_payload (sync_assignee : Bool) (current_issue target_issue : JiraIssue) :
    List (String × FieldVal) :=
  (if current_issue.summary ≠ target_issue.summary then
      [("summary", FieldVal.s target_issue.summary)] else []) ++
  (if current_issue.description ≠ target_issue.description then
      [("description",
        if py_truthy target_issue.description
        then FieldVal.doc (target_issue.description.getD "")
        else FieldVal.null)]
    else []) ++
  (if current_issue.priority ≠ target_issue.priority then
      [("priority", FieldVal.name target_issue.priority)] else []) ++
  (if sync_assignee ∧ current_issue.assignee ≠ target_issue.assignee then
      [("assignee",
        if py_truthy target_issue.assignee
        then FieldVal.email (target_issue.assignee.getD "")
        else FieldVal.null)]
    else []) ++
  (if current_issue.labels ≠ target_issue.labels then
      [("labels", FieldVal.strList target_issue.labels)] else []) ++
  (if current_issue.components ≠ target_issue.components then
      [("components", FieldVal.nameList target_issue.components)] else []) ++
  (if current_issue.fix_versions ≠ target_issue.fix_versions then
      [("fixVersions", FieldVal.nameList target_issue.fix_versions)] else []) ++
  (target_issue.custom_fields.filterMap (fun kv =>
      if current_issue.custom_fields.lookup kv.1 ≠ some kv.2
      then some (kv.1, FieldVal.custom kv.2) else none))

/-- `JiraClient.convert_to_create_payload` (the `fields` object, in the
source's insertion order). -/
def convert_to_create_payload (sync_assignee : Bool) (project_key : String) (issue : JiraIssue) :
    List (String × FieldVal) :=
  [("project", FieldVal.project project_key),
   ("summary", FieldVal.s issue.summary),
   ("issuetype", FieldVal.name issue.issue_type),
   ("priority", FieldVal.name issue.priority),
   ("labels", FieldVal.strList issue.labels)] ++
  (if py_truthy issue.description then
      [("description", FieldVal.doc (issue.description.getD ""))] else []) ++
  (if sync_assignee ∧ py_truthy issue.assignee then
      [("assignee", FieldVal.email (issue.assignee.getD ""))] else []) ++
  (if issue.components ≠ [] then
      [("components", FieldVal.nameList issue.components)] else []) ++
  (if issue.fix_versions ≠ [] then
      [("fixVersions", FieldVal.nameList issue.fix_versions)] else []) ++
  issue.custom_fields.map (fun kv => (kv.1, FieldVal.custom kv.2))

/-! ### storage.py — DynamoDB model

The table is keyed by `sync_id`; `put_item` is an upsert.  We model it as an
association list from `sync_id` to the record.  Issue sync records and comment
sync records live in separate lists (their `sync_id` shapes differ).  Storage
saves are modelled as never raising: the `StorageError` branches of the engine
are not exercised by any claim under verification. -/

/-- The issue-sync-record table. -/
abbrev Store := List (String × SyncRecord)

/-- The comment-sync-record part of the table. -/
abbrev CStore := List (String × CommentSyncRecord)

/-- DynamoDB `put_item`: replace the item with the same partition key, or add
a new item. -/
def put_item (store : Store) (r : SyncRecord) : Store :=
  if store.any (fun kv => kv.1 = r.sync_id) then
    store.map (fun kv => if kv.1 = r.sync_id then (kv.1, r) else kv)
  else store ++ [(r.sync_id, r)]

/-- `DynamoDBStorage.get_sync_record`. -/
def get_sync_record (store : Store) (sync_id : String) : Option SyncRecord :=
  (store.find? (fun kv => kv.1 = sync_id)).map Prod.snd

/-- `DynamoDBStorage.find_sync_record_by_jira_key`: query the per-side
secondary index and return the first match. -/
def find_sync_record_by_jira_key (store : Store) (jira_key : String) (jira_instance : Nat) :
    Option SyncRecord :=
  (store.map Prod.snd).find? (fun r =>
    (if jira_instance = 1 then r.jira_1_key else r.jira_2_key) = some jira_key)

/-- `put_item` for comment sync records. -/
def put_comment_item (cs : CStore) (r : CommentSyncRecord) : CStore :=
  if cs.any (fun kv => kv.1 = r.sync_id) then
    cs.map (fun kv => if kv.1 = r.sync_id then (kv.1, r) else kv)
  else cs ++ [(r.sync_id, r)]

/-- `DynamoDBStorage.get_comment_sync_record`. -/
def get_comment_sync_record (cs : CStore) (sync_id : String) : Option CommentSyncRecord :=
  (cs.find? (fun kv => kv.1 = sync_id)).map Prod.snd

/-- `DynamoDBStorage._generate_comment_sync_id`. -/
def generate_comment_sync_id (issue_key comment_id : String) (target_instance : Nat) : String :=
  issue_key ++ "#" ++ comment_id ++ "#" ++ toString target_instance

/-- `DynamoDBStorage.find_comment_sync_by_source`. -/
def find_comment_sync_by_source (cs : CStore) (issue_key source_comment_id : String)
    (source_instance : Nat) : Option CommentSyncRecord :=
  get_comment_sync_record cs (generate_comment_sync_id issue_key source_comment_id source_instance)

/-! ### Remote side model -/

/-- One entry of the `get_transitions` response: its id and the name of the
status it leads to (`transition.get("to", \x7b\x7d).get("name", "")`). -/
structure Transition where
  id : String
  to_name : String
deriving DecidableEq, Repr

/-- A successful remote write performed against a JIRA instance. -/
inductive RemoteOp where
  | createIssue (payload : List (String × FieldVal))
  | updateIssue (key : String) (payload : List (String × FieldVal))
  | transitionIssue (key : String) (transition_id : String)
  | addComment (issue_key : String) (body : String)
  | updateComment (issue_key comment_id : String) (body : String)
  | deleteComment (issue_key comment_id : String)
deriving DecidableEq, Repr

/-- The configuration fields the sync engine reads (config.py `SyncConfig`,
restricted to what the embedded code consumes). -/
structure SyncConfig where
  sync_status_transitions : Bool
  sync_assignee : Bool
  sync_comments : Bool
  project_key_1 : String
  project_key_2 : String
  base_url_1 : String
  base_url_2 : String
deriving DecidableEq, Repr

/-- Oracle inputs for `JiraClient.transition_issue_to_status`: the fetched
current issue, the transitions list, and whether the transition POST (or an
inner fetch) raises `JiraAPIError`. -/
structure TransitionEnv where
  current_fetch : JiraIssue
  transitions : List Transition
  transition_raises : Bool
deriving Repr

/-- `JiraClient.transition_issue_to_status`: returns the boolean the source
returns, together with the successful remote writes performed. -/
def transition_issue_to_status (env : TransitionEnv) (issue_key target_status : String) :
    Bool × List RemoteOp :=
  if env.current_fetch.status = target_status then (true, [])
  else
    match env.transitions.find? (fun t => py_lower t.to_name = py_lower target_status) with
    | some t =>
        if env.transition_raises then (false, [])
        else (true, [RemoteOp.transitionIssue issue_key t.id])
    | none => (false, [])

/-- Oracle inputs for `JiraClient.apply_issue_updates`: the transition oracle
and the final `get_issue` result returned to the caller. -/
structure ApplyEnv where
  tenv : TransitionEnv
  post_fetch : JiraIssue
deriving Repr

/-- `JiraClient.apply_issue_updates`: field update first (only when the diff
payload is nonempty), then the status transition when the statuses differ; a
failed transition is logged, not raised.  Returns the re-fetched issue. -/
def apply_issue_updates (sync_assignee : Bool) (env : ApplyEnv)
    (issue_key : String) (current_issue target_issue : JiraIssue) :
    JiraIssue × List RemoteOp :=
  let update_payload := convert_to_update_payload sync_assignee current_issue target_issue
  let ops1 := if update_payload ≠ [] then [RemoteOp.updateIssue issue_key update_payload] else []
  let ops2 :=
    if current_issue.status ≠ target_issue.status then
      (transition_issue_to_status env.tenv issue_key target_issue.status).2
    else []
  (env.post_fetch, ops1 ++ ops2)

/-! ### sync_engine.py -/

/-- Python `x or "unknown"` on an optional string. -/
def py_or_unknown : Option String → String
  | none => "unknown"
  | some s => if s = "" then "unknown" else s

/-- `SyncEngine._generate_sync_id`. -/
def generate_sync_id (jira_1_key jira_2_key : Option String) : String :=
  py_or_unknown jira_1_key ++ "#" ++ py_or_unknown jira_2_key

/-- Result of one engine operation: the returned `SyncResult` fields, the
final state of the store, the successful remote writes, and (for
`_sync_new_issue`) a re-raised exception message. -/
structure SyncOut where
  success : Bool
  record : SyncRecord
  error_message : Option String
  conflicts_detected : Bool
  store : Store
  ops : List RemoteOp
  raised : Option String
deriving DecidableEq, Repr

/-- `SyncEngine._check_for_conflicts`.  `conflict_fetch` is the
`target_client.get_issue(target_key)` oracle (a `JiraAPIError` means "target
does not exist: no conflict"). -/
def check_for_conflicts (conflict_fetch : Except Unit JiraIssue) (now : Nat) (store : Store)
    (source_issue : JiraIssue) (sync_record : SyncRecord) (source_instance : Nat) : SyncOut :=
  let target_key := if source_instance = 1 then sync_record.jira_2_key else sync_record.jira_1_key
  if py_truthy target_key = false then
    ⟨true, sync_record, none, false, store, [], none⟩
  else
    match conflict_fetch with
    | Except.error _ => ⟨true, sync_record, none, false, store, [], none⟩
    | Except.ok target_issue =>
      let source_last_known :=
        if source_instance = 1 then sync_record.jira_1_last_updated
        else sync_record.jira_2_last_updated
      let target_last_known :=
        if source_instance = 1 then sync_record.jira_2_last_updated
        else sync_record.jira_1_last_updated
      let source_updated_since_sync :=
        match source_last_known with
        | none => true
        | some w => decide (source_issue.updated > w)
      let target_updated_since_sync :=
        match target_last_known with
        | none => true
        | some w => decide (target_issue.updated > w)
      if source_updated_since_sync && target_updated_since_sync then
        let conflict_details :=
          "Both issues updated since last sync. Source (" ++ source_issue.key ++
          ") updated: " ++ toString source_issue.updated ++
          ", Target (" ++ py_or_unknown target_key ++
          ") updated: " ++ toString target_issue.updated ++
          ", Last sync: " ++ toString sync_record.last_sync_timestamp
        let rec1 : SyncRecord := { sync_record with
          status := SyncStatus.conflict,
          requires_manual_resolution := true,
          conflict_details := some conflict_details,
          last_sync_timestamp := now }
        ⟨false, rec1, some conflict_details, true, put_item store rec1, [], none⟩
      else
        ⟨true, sync_record, none, false, store, [], none⟩

/-- Oracle inputs for `SyncEngine._sync_existing_issue`: the conflict-check
fetch, the main target fetch, whether a remote write inside the `try` raises
(`except Exception` branch), and the apply/post-fetch oracle. -/
structure ExistingEnv where
  conflict_fetch : Except Unit JiraIssue
  target_fetch : Except String JiraIssue
  write_raises : Option String
  aenv : ApplyEnv
deriving Repr

/-- `SyncEngine._sync_existing_issue`. -/
def sync_existing_issue (cfg : SyncConfig) (env : ExistingEnv) (now : Nat) (store : Store)
    (source_issue : JiraIssue) (sync_record : SyncRecord) (source_instance : Nat) : SyncOut :=
  let target_instance := if source_instance = 1 then 2 else 1
  let direction :=
    if source_instance = 1 then SyncDirection.jira_1_to_2 else SyncDirection.jira_2_to_1
  let target_key := if source_instance = 1 then sync_record.jira_2_key else sync_record.jira_1_key
  if py_truthy target_key = false then
    ⟨false, sync_record, some "Target issue key not found in sync record", false, store, [], none⟩
  else
    let tk := target_key.getD ""
    let c := check_for_conflicts env.conflict_fetch now store source_issue sync_record source_instance
    if c.conflicts_detected then c
    else
      let rec1 := { sync_record with status := SyncStatus.in_progress, last_sync_timestamp := now }
      let store1 := put_item store rec1
      match env.target_fetch with
      | Except.error e =>
          let rec2 := { rec1 with
            status := SyncStatus.failed,
            error_count := rec1.error_count + 1, last_error := some e }
          ⟨false, rec2, some e, false, put_item store1 rec2, [], none⟩
      | Except.ok target_issue =>
          let update_payload := convert_to_update_payload cfg.sync_assignee target_issue source_issue
          let status_changed :=
            cfg.sync_status_transitions && target_issue.status != source_issue.status
          let finish := fun (rec2 : SyncRecord) (ops : List RemoteOp) =>
            let rec3 :=
              if source_instance = 1 then
                { rec2 with jira_1_last_updated := some source_issue.updated }
              else
                { rec2 with jira_2_last_updated := some source_issue.updated }
            let rec4 := { rec3 with
              last_sync_direction := some direction,
              error_count := 0, last_error := none }
            (⟨true, rec4, none, false, put_item store1 rec4, ops, none⟩ : SyncOut)
          if update_payload = [] ∧ status_changed = false then
            finish { rec1 with status := SyncStatus.success } []
          else
            match env.write_raises with
            | some e =>
                let rec2 := { rec1 with
                  status := SyncStatus.failed,
                  error_count := rec1.error_count + 1, last_error := some e }
                ⟨false, rec2, some e, false, put_item store1 rec2, [], none⟩
            | none =>
                let ut :=
                  if status_changed then
                    apply_issue_updates cfg.sync_assignee env.aenv tk target_issue source_issue
                  else
                    (env.aenv.post_fetch, [RemoteOp.updateIssue tk update_payload])
                let rec2 :=
                  if target_instance = 1 then
                    { rec1 with
                      jira_1_last_updated := some ut.1.updated,
                      status := SyncStatus.success }
                  else
                    { rec1 with
                      jira_2_last_updated := some ut.1.updated,
                      status := SyncStatus.success }
                finish rec2 ut.2

/-- `SyncEngine._sync_new_issue`.  `create_result` is the oracle for
`create_issue` (which itself re-fetches the created issue). -/
def sync_new_issue (cfg : SyncConfig) (now : Nat) (store : Store) (source_issue : JiraIssue)
    (source_instance : Nat) (create_result : Except String JiraIssue) : SyncOut :=
  let target_instance := if source_instance = 1 then 2 else 1
  let direction :=
    if source_instance = 1 then SyncDirection.jira_1_to_2 else SyncDirection.jira_2_to_1
  let target_project := if source_instance = 1 then cfg.project_key_2 else cfg.project_key_1
  let rec0 : SyncRecord := {
    sync_id := generate_sync_id (some source_issue.key) none,
    jira_1_key := none, jira_2_key := none,
    status := SyncStatus.in_progress, last_sync_direction := none,
    last_sync_timestamp := now, jira_1_last_updated := none, jira_2_last_updated := none,
    error_count := 0, last_error := none,
    requires_manual_resolution := false, conflict_details := none }
  let rec1 :=
    if source_instance = 1 then
      { rec0 with
        jira_1_key := some source_issue.key,
        jira_1_last_updated := some source_issue.updated }
    else
      { rec0 with
        jira_2_key := some source_issue.key,
        jira_2_last_updated := some source_issue.updated }
  let store1 := put_item store rec1
  match create_result with
  | Except.error e =>
      let rec2 := { rec1 with
        status := SyncStatus.failed,
        error_count := rec1.error_count + 1, last_error := some e }
      ⟨false, rec2, some e, false, put_item store1 rec2, [], some e⟩
  | Except.ok target_issue =>
      let rec2 :=
        if target_instance = 1 then
          { rec1 with
            jira_1_key := some target_issue.key,
            jira_1_last_updated := some target_issue.updated }
        else
          { rec1 with
            jira_2_key := some target_issue.key,
            jira_2_last_updated := some target_issue.updated }
      let rec3 := { rec2 with
        status := SyncStatus.success, last_sync_direction := some direction,
        sync_id := generate_sync_id rec2.jira_1_key rec2.jira_2_key }
      ⟨true, rec3, none, false, put_item store1 rec3,
        [RemoteOp.createIssue (convert_to_create_payload cfg.sync_assignee target_project source_issue)],
        none⟩

/-- `SyncEngine._create_error_sync_record`. -/
def create_error_sync_record (now : Nat) (issue_key : String) (source_instance : Nat) :
    SyncRecord :=
  let rec0 : SyncRecord := {
    sync_id := generate_sync_id
      (if source_instance = 1 then some issue_key else none)
      (if source_instance = 2 then some issue_key else none),
    jira_1_key := none, jira_2_key := none,
    status := SyncStatus.failed, last_sync_direction := none, last_sync_timestamp := now,
    jira_1_last_updated := none, jira_2_last_updated := none, error_count := 1,
    last_error := none, requires_manual_resolution := false, conflict_details := none }
  if source_instance = 1 then { rec0 with jira_1_key := some issue_key }
  else { rec0 with jira_2_key := some issue_key }

/-- Outcome of `SyncEngine.sync_issue_from_webhook` as seen by a caller:
either a returned `SyncResult`, an `UnboundLocalError` escaping the
`except` handler (with the store untouched up to that point), or the
`ValueError` for an invalid `source_instance`. -/
inductive PyOutcome where
  | result : SyncOut → PyOutcome
  | unbound_local_error : Store → PyOutcome
  | value_error : PyOutcome
deriving Repr

/-- Oracle inputs for `SyncEngine.sync_issue_from_webhook`. -/
structure WebhookEnv where
  source_fetch : Except String JiraIssue
  create_result : Except String JiraIssue
  eenv : ExistingEnv
deriving Repr

/-- `SyncEngine.sync_issue_from_webhook`.  When the initial source fetch
raises, the `except` handler evaluates `if sync_record:` before the local
`sync_record` has been assigned, so an `UnboundLocalError` propagates and no
`SyncResult` is returned and nothing is persisted. -/
def sync_issue_from_webhook (cfg : SyncConfig) (env : WebhookEnv) (now : Nat) (store : Store)
    (issue_key : String) (source_instance : Nat) : PyOutcome :=
  if source_instance ≠ 1 ∧ source_instance ≠ 2 then PyOutcome.value_error
  else
    match env.source_fetch with
    | Except.error _ => PyOutcome.unbound_local_error store
    | Except.ok source_issue =>
        match find_sync_record_by_jira_key store issue_key source_instance with
        | none =>
            let out := sync_new_issue cfg now store source_issue source_instance env.create_result
            match out.raised with
            | none => PyOutcome.result out
            | some e =>
                -- Re-raised create failure caught by the handler; the local
                -- `sync_record` is `None` (falsy), so the error-update block
                -- is skipped and a fresh error record is returned unsaved.
                PyOutcome.result ⟨false, create_error_sync_record now issue_key source_instance,
                  some ("Sync failed for " ++ issue_key ++ ": " ++ e), false,
                  out.store, out.ops, none⟩
        | some sync_record =>
            PyOutcome.result
              (sync_existing_issue cfg env.eenv now store source_issue sync_record source_instance)

/-- `SyncEngine.resolve_conflict_manual` (`Except.error` models the raised
`ValueError`s and a propagated fetch error). -/
def resolve_conflict_manual (cfg : SyncConfig) (env : ExistingEnv) (now : Nat) (store : Store)
    (sync_id : String) (resolution_direction : SyncDirection)
    (source_fetch : Except String JiraIssue) : Except String SyncOut :=
  match get_sync_record store sync_id with
  | none => Except.error ("Sync record " ++ sync_id ++ " not found")
  | some sync_record =>
    if sync_record.status ≠ SyncStatus.conflict then
      Except.error ("Sync record " ++ sync_id ++ " is not in conflict state")
    else
      let source_instance :=
        if resolution_direction = SyncDirection.jira_1_to_2 then 1 else 2
      let source_key :=
        if source_instance = 1 then sync_record.jira_1_key else sync_record.jira_2_key
      if py_truthy source_key = false then
        Except.error "Source key not found in sync record"
      else
        match source_fetch with
        | Except.error e => Except.error e
        | Except.ok source_issue =>
            let rec1 := { sync_record with
              status := SyncStatus.pending,
              requires_manual_resolution := false, conflict_details := none }
            Except.ok (sync_existing_issue cfg env now store source_issue rec1 source_instance)

/-! ### jira_client.py — comment parsing -/

/-- The wire data of one comment as consumed by `_parse_comments` (the body
already flattened from ADF to plain text, as `_extract_text_from_adf` does). -/
structure RawComment where
  id : String
  body : String
  author_name : String
  author_email : Option String
  created : Nat
  updated : Nat
  jsdPublic : Bool
deriving DecidableEq, Repr

/-- Helper for `capture_after_marker`: try each occurrence of the marker in
order; `l :: rest` are the `splitOn` pieces after the occurrences still to
try, so the text following the current occurrence is
`intercalate marker (l :: rest)`. -/
def capture_go (marker : String) : List String → Option String
  | [] => none
  | l :: rest =>
      let t := String.intercalate marker (l :: rest)
      let line := t.takeWhile (fun c => c ≠ '\n')
      if 1 ≤ line.length ∧ line.length < t.length then some line
      else capture_go marker rest

/-- Semantics of `re.search(<marker>(.+?)\n, body)` as used by
`_extract_original_author` / `_extract_sync_source_id`: the run of
non-newline characters after the first occurrence of the marker that is
nonempty and newline-terminated. -/
def capture_after_marker (marker body : String) : Option String :=
  capture_go marker ((body.splitOn marker).drop 1)

/-- `JiraClient._extract_original_author`. -/
def extract_original_author (body : String) : Option String :=
  capture_after_marker "[JIRA-SYNC] Original author: " body

/-- `JiraClient._extract_sync_source_id`. -/
def extract_sync_source_id (body : String) : Option String :=
  capture_after_marker "[JIRA-SYNC] Source ID: " body

/-- `JiraClient._parse_comments` for a single comment (what `get_comment`
returns): `none` when the comment is not public. -/
def parse_comment (raw : RawComment) : Option JiraComment :=
  if raw.jsdPublic = false then none
  else
    let isc := is_sync_comment raw.body
    some {
      id := raw.id, body := raw.body, author_name := raw.author_name,
      author_email := raw.author_email, created := raw.created, updated := raw.updated,
      is_sync_comment := isc,
      original_author := if isc then extract_original_author raw.body else none,
      sync_source_id := if isc then extract_sync_source_id raw.body else none }

/-- Body built by `JiraClient.create_sync_comment` (datetime rendering
abstracted to `toString` of the instant). -/
def sync_comment_body (original : JiraComment) (source_instance_name : String) : String :=
  "[JIRA-SYNC] Original author: " ++ original.author_name ++
  (match original.author_email with
   | some e => " (" ++ e ++ ")"
   | none => "") ++ "\n" ++
  "[JIRA-SYNC] Source ID: " ++ original.id ++ "\n" ++
  "[JIRA-SYNC] From: " ++ source_instance_name ++ "\n" ++
  "[JIRA-SYNC] Created: " ++ toString original.created ++ "\n\n" ++
  "---\n\n" ++ original.body

/-- Body built inline by `SyncEngine._sync_updated_comment` (adds the
Updated stamp line). -/
def sync_comment_body_updated (original : JiraComment) (source_instance_name : String) : String :=
  "[JIRA-SYNC] Original author: " ++ original.author_name ++
  (match original.author_email with
   | some e => " (" ++ e ++ ")"
   | none => "") ++ "\n" ++
  "[JIRA-SYNC] Source ID: " ++ original.id ++ "\n" ++
  "[JIRA-SYNC] From: " ++ source_instance_name ++ "\n" ++
  "[JIRA-SYNC] Created: " ++ toString original.created ++ "\n" ++
  "[JIRA-SYNC] Updated: " ++ toString original.updated ++ "\n\n" ++
  "---\n\n" ++ original.body

/-! ### sync_engine.py — comment sync -/

/-- Oracle inputs for `SyncEngine.sync_comment_from_webhook`. -/
structure CommentEnv where
  comment_fetch : Except String RawComment
  created_comment_id : String
  create_raises : Option String
  update_raises : Option String
  delete_raises : Option String
deriving Repr

/-- Result of a comment-sync operation: the returned boolean, the final
comment-record store, the successful remote writes, and whether the
`ValueError` for a bad `source_instance` was raised. -/
structure CommentOut where
  ok : Bool
  cstore : CStore
  ops : List RemoteOp
  raised : Bool
deriving DecidableEq, Repr

/-- `SyncEngine._handle_comment_deletion`. -/
def handle_comment_deletion (env : CommentEnv) (cstore : CStore)
    (source_issue_key source_comment_id : String) (source_instance : Nat)
    (target_issue_key : String) : CommentOut :=
  let target_instance := if source_instance = 1 then 2 else 1
  match find_comment_sync_by_source cstore source_issue_key source_comment_id target_instance with
  | none => ⟨true, cstore, [], false⟩
  | some comment_sync =>
      if py_truthy comment_sync.target_comment_id = false then ⟨true, cstore, [], false⟩
      else
        match env.delete_raises with
        | none =>
            ⟨true, cstore,
              [RemoteOp.deleteComment target_issue_key (comment_sync.target_comment_id.getD "")],
              false⟩
        | some e =>
            if py_in "comment not found" (py_lower e) then ⟨true, cstore, [], false⟩
            else ⟨false, cstore, [], false⟩

/-- `SyncEngine._sync_new_comment`. -/
def sync_new_comment (env : CommentEnv) (now : Nat) (cstore : CStore)
    (source_comment : JiraComment) (source_issue_key target_issue_key : String)
    (source_instance target_instance : Nat) (source_instance_name : String) : CommentOut :=
  match env.create_raises with
  | some _ => ⟨false, cstore, [], false⟩
  | none =>
      let body := sync_comment_body source_comment source_instance_name
      let direction :=
        if source_instance = 1 then SyncDirection.jira_1_to_2 else SyncDirection.jira_2_to_1
      let rec1 : CommentSyncRecord := {
        sync_id := generate_comment_sync_id source_issue_key source_comment.id target_instance,
        issue_key := source_issue_key,
        source_comment_id := source_comment.id,
        target_comment_id := some env.created_comment_id,
        source_instance := source_instance,
        target_instance := target_instance,
        last_sync_timestamp := now,
        sync_direction := direction,
        status := SyncStatus.success }
      ⟨true, put_comment_item cstore rec1,
        [RemoteOp.addComment target_issue_key body], false⟩

/-- `SyncEngine._sync_updated_comment`. -/
def sync_updated_comment (env : CommentEnv) (now : Nat) (cstore : CStore)
    (source_comment : JiraComment) (source_issue_key target_issue_key : String)
    (source_instance target_instance : Nat) (source_instance_name : String) : CommentOut :=
  let found := find_comment_sync_by_source cstore source_issue_key source_comment.id target_instance
  match found with
  | none =>
      sync_new_comment env now cstore source_comment source_issue_key target_issue_key
        source_instance target_instance source_instance_name
  | some comment_sync =>
      if py_truthy comment_sync.target_comment_id = false then
        sync_new_comment env now cstore source_comment source_issue_key target_issue_key
          source_instance target_instance source_instance_name
      else
        match env.update_raises with
        | some _ => ⟨false, cstore, [], false⟩
        | none =>
            let body := sync_comment_body_updated source_comment source_instance_name
            let rec1 := { comment_sync with
              last_sync_timestamp := now, status := SyncStatus.success }
            ⟨true, put_comment_item cstore rec1,
              [RemoteOp.updateComment target_issue_key
                (comment_sync.target_comment_id.getD "") body],
              false⟩

/-- `SyncEngine.sync_comment_from_webhook`. -/
def sync_comment_from_webhook (cfg : SyncConfig) (env : CommentEnv) (now : Nat)
    (store : Store) (cstore : CStore)
    (issue_key comment_id : String) (source_instance : Nat) (event_type : String) :
    CommentOut :=
  if cfg.sync_comments = false then ⟨true, cstore, [], false⟩
  else if source_instance ≠ 1 ∧ source_instance ≠ 2 then ⟨false, cstore, [], true⟩
  else
    let target_instance := if source_instance = 1 then 2 else 1
    match find_sync_record_by_jira_key store issue_key source_instance with
    | none => ⟨false, cstore, [], false⟩
    | some source_sync_record =>
      let target_issue_key :=
        if source_instance = 1 then source_sync_record.jira_2_key
        else source_sync_record.jira_1_key
      if py_truthy target_issue_key = false then ⟨false, cstore, [], false⟩
      else
        let tik := target_issue_key.getD ""
        match find_comment_sync_by_source cstore issue_key comment_id target_instance with
        | some _ => ⟨true, cstore, [], false⟩
        | none =>
          if event_type = "deleted" then
            handle_comment_deletion env cstore issue_key comment_id source_instance tik
          else
            match env.comment_fetch with
            | Except.error e =>
                if py_in "comment not found" (py_lower e) then
                  handle_comment_deletion env cstore issue_key comment_id source_instance tik
                else ⟨false, cstore, [], false⟩
            | Except.ok raw =>
                match parse_comment raw with
                | none => ⟨true, cstore, [], false⟩
                | some source_comment =>
                    if source_comment.is_sync_comment then ⟨true, cstore, [], false⟩
                    else
                      let source_instance_name :=
                        if source_instance = 1 then "JIRA-1 (" ++ cfg.base_url_1 ++ ")"
                        else "JIRA-2 (" ++ cfg.base_url_2 ++ ")"
                      if event_type = "created" then
                        sync_new_comment env now cstore source_comment issue_key tik
                          source_instance target_instance source_instance_name
                      else if event_type = "updated" then
                        sync_updated_comment env now cstore source_comment issue_key tik
                          source_instance target_instance source_instance_name
                      else ⟨false, cstore, [], false⟩

/-! ### lambda_handlers.py -/

/-- The event list in `should_process_event`. -/
def relevant_events : List String :=
  ["jira:issue_created", "jira:issue_updated", "jira:issue_deleted"]

/-- `should_process_event` (only the `webhookEvent` field is consulted; the
commented-out refinements in the source are dead). -/
def should_process_event (webhookEvent : String) : Bool :=
  relevant_events.contains webhookEvent

/-- The parsed webhook payload fields `jira_webhook_handler` consults. -/
structure WebhookPayloadM where
  webhookEvent : String
  issue_key : Option String
deriving DecidableEq, Repr

/-- A handler response together with which reconcilers were invoked.  The
source's `jira_webhook_handler` contains no call into comment sync, hence
`invoked_comment_sync` is `false` on every path. -/
structure HandlerOut where
  statusCode : Nat
  body_message : String
  invoked_issue_sync : Bool
  invoked_comment_sync : Bool
deriving DecidableEq, Repr

/-- `jira_webhook_handler` control flow after body decoding: signature check,
payload parse, event filter, issue-key check, then the issue sync (whose
success the `sync_success` oracle reports). -/
def jira_webhook_handler (signature_ok parse_ok : Bool) (payload : WebhookPayloadM)
    (sync_success : Bool) : HandlerOut :=
  if signature_ok = false then ⟨401, "Invalid signature", false, false⟩
  else if parse_ok = false then ⟨400, "Invalid payload format", false, false⟩
  else if should_process_event payload.webhookEvent = false then
    ⟨200, "Event skipped", false, false⟩
  else if py_truthy payload.issue_key = false then ⟨400, "No issue key found", false, false⟩
  else if sync_success then ⟨200, "Sync completed successfully", true, false⟩
  else ⟨500, "Sync failed", true, false⟩

/-! ### Concrete fixtures used by witnesses and counterexamples -/

/-- A configuration with the defaults of config.py. -/
def sampleConfig : SyncConfig := {
  sync_status_transitions := true, sync_assignee := false, sync_comments := true,
  project_key_1 := "PROJ", project_key_2 := "RPROJ",
  base_url_1 := "https://one.example", base_url_2 := "https://two.example" }

/-- A sample issue on instance 1. -/
def issueA : JiraIssue := {
  key := "A-1", summary := "Hello", description := some "desc", issue_type := "Task",
  status := "To Do", priority := "Medium", assignee := none, reporter := "r@example.com",
  labels := ["a", "b"], components := [], fix_versions := [],
  custom_fields := [], created := 0, updated := 10, resolution := none }

/-- The peer issue on instance 2. -/
def issueB : JiraIssue := { issueA with key := "B-1", updated := 20 }

/-- `issueA` with the same labels in the opposite order. -/
def issueASwapped : JiraIssue := { issueA with labels := ["b", "a"] }

/-- An established pair record for `issueA`/`issueB`. -/
def pairRecord : SyncRecord := {
  sync_id := "A-1#B-1", jira_1_key := some "A-1", jira_2_key := some "B-1",
  status := SyncStatus.success, last_sync_direction := some SyncDirection.jira_1_to_2,
  last_sync_timestamp := 5, jira_1_last_updated := some 10, jira_2_last_updated := some 20,
  error_count := 0, last_error := none, requires_manual_resolution := false,
  conflict_details := none }

/-- A comment sync record: comment 10001 on A-1 was mirrored to instance 2 as
comment 20002. -/
def commentRecord : CommentSyncRecord := {
  sync_id := "A-1#10001#2", issue_key := "A-1", source_comment_id := "10001",
  target_comment_id := some "20002", source_instance := 1, target_instance := 2,
  last_sync_timestamp := 6, sync_direction := SyncDirection.jira_1_to_2,
  status := SyncStatus.success }

/-- A comment-sync oracle on which every remote comment operation succeeds. -/
def commentEnvOk : CommentEnv := {
  comment_fetch := Except.error "JIRA API error: 404 - comment not found",
  created_comment_id := "30003", create_raises := none, update_raises := none,
  delete_raises := none }


/-- A raw comment whose body carries the `[JIRA-SYNC]` marker after leading
whitespace. -/
def rawSyncComment : RawComment := {
  id := "10002",
  body := "  [JIRA-SYNC] Original author: Bob\n[JIRA-SYNC] Source ID: 9\nhi",
  author_name := "SyncBot", author_email := none, created := 1, updated := 2,
  jsdPublic := true }

/-- A comment oracle that fetches `rawSyncComment`. -/
def commentEnvSync : CommentEnv := { commentEnvOk with comment_fetch := Except.ok rawSyncComment }

/-- A transition oracle with no available transitions. -/
def transitionEnvEmpty : TransitionEnv := {
  current_fetch := issueA, transitions := [], transition_raises := false }

/-- An existing-sync oracle whose fetches fail. -/
def failingExistingEnv : ExistingEnv := {
  conflict_fetch := Except.error (), target_fetch := Except.error "x",
  write_raises := none,
  aenv := { tenv := transitionEnvEmpty, post_fetch := issueA } }

/-- A webhook oracle whose initial source fetch raises. -/
def failingFetchEnv : WebhookEnv := {
  source_fetch := Except.error "boom", create_result := Except.ok issueB,
  eenv := failingExistingEnv }


/-- An updated copy of `issueA` (updated stamp 15, past the watermark 10). -/
def issueA15 : JiraIssue := { issueA with updated := 15 }

/-- An updated copy of `issueB` (updated stamp 25, past the watermark 20). -/
def issueB25 : JiraIssue := { issueB with updated := 25 }

/-- An existing-sync oracle whose conflict fetch sees `issueB25`. -/
def conflictEnv : ExistingEnv := { failingExistingEnv with conflict_fetch := Except.ok issueB25 }

/-- The peer issue as fetched before the update: stale summary, different
workflow status. -/
def issueBStale : JiraIssue := { issueB with summary := "Old", status := "In Progress" }

/-- An oracle for an existing-issue sync where the peer offers no transitions. -/
def noTransitionEnv : ExistingEnv := {
  conflict_fetch := Except.ok issueB,
  target_fetch := Except.ok issueBStale,
  write_raises := none,
  aenv := {
    tenv := { current_fetch := issueBStale, transitions := [], transition_raises := false },
    post_fetch := issueBStale } }

/-- Watermark order: an absent watermark may become anything; a present one
may only be replaced by an equal or later instant. -/
def wm_le (o n : Option Nat) : Prop := ∀ a, o = some a → ∃ b, n = some b ∧ a ≤ b

/-! ### Shared helper lemmas -/

theorem map_fst_ite_single {c : Prop} [inst : Decidable c] (k : String) (v : FieldVal) :
    (if c then [(k, v)] else []).map Prod.fst = if c then [k] else [] := by
  split <;> rfl

theorem mem_ite_single_iff {c : Prop} [inst : Decidable c] (x k : String) :
    x ∈ (if c then [k] else []) ↔ c ∧ x = k := by
  split <;> simp_all

theorem mem_custom_fst_iff (l lc : List (String × String)) (x : String) :
    (x ∈ (l.filterMap (fun kv =>
        if lc.lookup kv.1 ≠ some kv.2 then some (kv.1, FieldVal.custom kv.2) else none)).map
        Prod.fst) ↔
    ∃ kv ∈ l, lc.lookup kv.1 ≠ some kv.2 ∧ x = kv.1 := by
  simp only [List.mem_map, List.mem_filterMap]
  constructor
  · rintro ⟨pr, ⟨kv, hkv, hsome⟩, rfl⟩
    by_cases hp : lc.lookup kv.1 ≠ some kv.2
    · rw [if_pos hp] at hsome
      cases hsome
      exact ⟨kv, hkv, hp, rfl⟩
    · rw [if_neg hp] at hsome; cases hsome
  · rintro ⟨kv, hkv, hp, rfl⟩
    exact ⟨(kv.1, FieldVal.custom kv.2), ⟨kv, hkv, by rw [if_pos hp]⟩, rfl⟩

theorem mem_update_payload_key_iff (sync_assignee : Bool) (cur tgt : JiraIssue) (x : String) :
    x ∈ (convert_to_update_payload sync_assignee cur tgt).map Prod.fst ↔
      ((cur.summary ≠ tgt.summary ∧ x = "summary") ∨
       (cur.description ≠ tgt.description ∧ x = "description") ∨
       (cur.priority ≠ tgt.priority ∧ x = "priority") ∨
       ((sync_assignee = true ∧ cur.assignee ≠ tgt.assignee) ∧ x = "assignee") ∨
       (cur.labels ≠ tgt.labels ∧ x = "labels") ∨
       (cur.components ≠ tgt.components ∧ x = "components") ∨
       (cur.fix_versions ≠ tgt.fix_versions ∧ x = "fixVersions") ∨
       (∃ kv ∈ tgt.custom_fields, cur.custom_fields.lookup kv.1 ≠ some kv.2 ∧ x = kv.1)) := by
  simp only [convert_to_update_payload, List.map_append, List.mem_append,
    map_fst_ite_single, mem_ite_single_iff, mem_custom_fst_iff, or_assoc]

theorem mem_create_payload_key_iff (sync_assignee : Bool) (project_key : String)
    (issue : JiraIssue) (x : String) :
    x ∈ (convert_to_create_payload sync_assignee project_key issue).map Prod.fst ↔
      (x = "project" ∨ x = "summary" ∨ x = "issuetype" ∨ x = "priority" ∨ x = "labels" ∨
       (py_truthy issue.description = true ∧ x = "description") ∨
       ((sync_assignee = true ∧ py_truthy issue.assignee = true) ∧ x = "assignee") ∨
       (issue.components ≠ [] ∧ x = "components") ∨
       (issue.fix_versions ≠ [] ∧ x = "fixVersions") ∨
       (∃ kv ∈ issue.custom_fields, kv.1 = x)) := by
  simp only [convert_to_create_payload, List.map_append, List.mem_append, List.map_cons,
    List.map_nil, List.mem_cons, List.not_mem_nil, or_false, List.map_map, List.mem_map,
    map_fst_ite_single, mem_ite_single_iff, Function.comp, or_assoc]

theorem no_matching_custom_key {l : List (String × String)} {x : String}
    (h : ∀ kv ∈ l, py_startswith kv.1 "customfield_" = true)
    (hx : py_startswith x "customfield_" = false)
    (p : String × String → Prop) :
    ¬∃ kv ∈ l, p kv ∧ x = kv.1 := by
  intro hex
  obtain ⟨kv, hkv, hrest⟩ := hex
  rw [hrest.2] at hx
  rw [h kv hkv] at hx
  cases hx

theorem no_matching_custom_key_plain {l : List (String × String)} {x : String}
    (h : ∀ kv ∈ l, py_startswith kv.1 "customfield_" = true)
    (hx : py_startswith x "customfield_" = false) :
    ¬∃ kv ∈ l, kv.1 = x := by
  intro hex
  obtain ⟨kv, hkv, hrest⟩ := hex
  rw [← hrest] at hx
  rw [h kv hkv] at hx
  cases hx

/-- C7 counterexample: `issueA` and `issueASwapped` have the same label
elements in different order (and equal components and fix versions), yet the
computed field diff contains a `labels` entry — the three fields are *not*
compared as unordered sets. -/
theorem set_comparison_counterexample :
    issueASwapped.labels.Perm issueA.labels ∧
    issueASwapped.components = issueA.components ∧
    issueASwapped.fix_versions = issueA.fix_versions ∧
    (convert_to_update_payload false issueA issueASwapped).map Prod.fst = ["labels"] := by
  refine ⟨?_, rfl, rfl, rfl⟩
  decide

/-- C7 (amended): `labels`, `components` and `fix_versions` are compared as
ordered lists — the field diff contains an entry for such a field iff the two
lists differ element-wise (given that custom field keys carry their
`customfield_` prefix, as `_extract_custom_fields` guarantees). -/
theorem list_fields_diff_iff (sync_assignee : Bool) (cur tgt : JiraIssue)
    (hcf : ∀ kv ∈ tgt.custom_fields, py_startswith kv.1 "customfield_" = true) :
    ("labels" ∈ (convert_to_update_payload sync_assignee cur tgt).map Prod.fst ↔
       cur.labels ≠ tgt.labels) ∧
    ("components" ∈ (convert_to_update_payload sync_assignee cur tgt).map Prod.fst ↔
       cur.components ≠ tgt.components) ∧
    ("fixVersions" ∈ (convert_to_update_payload sync_assignee cur tgt).map Prod.fst ↔
       cur.fix_versions ≠ tgt.fix_versions) := by
  have hl := no_matching_custom_key (x := "labels") hcf (by decide)
    (fun kv => cur.custom_fields.lookup kv.1 ≠ some kv.2)
  have hc := no_matching_custom_key (x := "components") hcf (by decide)
    (fun kv => cur.custom_fields.lookup kv.1 ≠ some kv.2)
  have hf := no_matching_custom_key (x := "fixVersions") hcf (by decide)
    (fun kv => cur.custom_fields.lookup kv.1 ≠ some kv.2)
  refine ⟨?_, ?_, ?_⟩ <;> rw [mem_update_payload_key_iff]
  · simp [hl]
  · simp [hc]
  · simp [hf]

/-- C7 witness: the amended theorem applied at a concrete input. -/
theorem list_fields_diff_iff_witness :
    "labels" ∈ (convert_to_update_payload false issueA issueASwapped).map Prod.fst ↔
      issueA.labels ≠ issueASwapped.labels := by
  exact (list_fields_diff_iff false issueA issueASwapped (by decide)).1

/-- C9: neither the partial-update payload nor the create payload ever
contains a `status` field (custom field keys carry their `customfield_`
prefix, as `_extract_custom_fields` guarantees); status moves only through
the transitions endpoint. -/
theorem status_not_in_payloads (sync_assignee : Bool) (project_key : String)
    (current_issue target_issue : JiraIssue)
    (hcf : ∀ kv ∈ target_issue.custom_fields, py_startswith kv.1 "customfield_" = true) :
    "status" ∉ (convert_to_update_payload sync_assignee current_issue target_issue).map Prod.fst ∧
    "status" ∉ (convert_to_create_payload sync_assignee project_key target_issue).map Prod.fst := by
  have h1 := no_matching_custom_key (x := "status") hcf (by decide)
    (fun kv => current_issue.custom_fields.lookup kv.1 ≠ some kv.2)
  have h2 := no_matching_custom_key_plain (x := "status") hcf (by decide)
  constructor
  · rw [mem_update_payload_key_iff]
    simp [h1]
  · rw [mem_create_payload_key_iff]
    simp [h2]

/-- C9 witness: the theorem applied at a concrete input. -/
theorem status_not_in_payloads_witness :
    "status" ∉ (convert_to_update_payload false issueA issueB).map Prod.fst ∧
    "status" ∉ (convert_to_create_payload false "PROJ" issueB).map Prod.fst := by
  exact status_not_in_payloads false "PROJ" issueA issueB (by decide)

theorem sync_comment_loop_suppression (cfg : SyncConfig) (env : CommentEnv) (now : Nat)
    (store : Store) (cstore : CStore) (issue_key comment_id : String)
    (source_instance : Nat) (event_type : String) :
    (∀ raw, env.comment_fetch = Except.ok raw → is_sync_comment raw.body = true →
       (sync_comment_from_webhook cfg env now store cstore issue_key comment_id
          source_instance event_type).ops = [] ∧
       (sync_comment_from_webhook cfg env now store cstore issue_key comment_id
          source_instance event_type).cstore = cstore) ∧
    (∀ r, find_comment_sync_by_source cstore issue_key comment_id
        (if source_instance = 1 then 2 else 1) = some r →
       (sync_comment_from_webhook cfg env now store cstore issue_key comment_id
          source_instance event_type).ops = [] ∧
       (sync_comment_from_webhook cfg env now store cstore issue_key comment_id
          source_instance event_type).cstore = cstore) := by
  constructor
  · intro raw hfetch hsync
    have hpc : ∀ c, parse_comment raw = some c → c.is_sync_comment = true := by
      intro c hc
      unfold parse_comment at hc
      split at hc
      · cases hc
      · rw [Option.some.injEq] at hc
        rw [← hc]
        exact hsync
    by_cases hsc : cfg.sync_comments = false
    · simp [sync_comment_from_webhook, hsc]
    · by_cases hio : source_instance ≠ 1 ∧ source_instance ≠ 2
      · simp [sync_comment_from_webhook, hsc, hio]
      · cases hfind : find_sync_record_by_jira_key store issue_key source_instance with
        | none => simp [sync_comment_from_webhook, hsc, hio, hfind]
        | some srec =>
          by_cases htik : py_truthy
              (if source_instance = 1 then srec.jira_2_key else srec.jira_1_key) = false
          · simp [sync_comment_from_webhook, hsc, hio, hfind, htik]
          · cases hlook : find_comment_sync_by_source cstore issue_key comment_id
                (if source_instance = 1 then 2 else 1) with
            | some r => simp [sync_comment_from_webhook, hsc, hio, hfind, htik, hlook]
            | none =>
              by_cases hev : event_type = "deleted"
              · simp [sync_comment_from_webhook, handle_comment_deletion,
                  hsc, hio, hfind, htik, hlook, hev]
              · cases hparse : parse_comment raw with
                | none =>
                    simp [sync_comment_from_webhook, hsc, hio, hfind, htik, hlook, hev,
                      hfetch, hparse]
                | some c =>
                    have hc := hpc c hparse
                    simp [sync_comment_from_webhook, hsc, hio, hfind, htik, hlook, hev,
                      hfetch, hparse, hc]
  · intro r hr
    by_cases hsc : cfg.sync_comments = false
    · simp [sync_comment_from_webhook, hsc]
    · by_cases hio : source_instance ≠ 1 ∧ source_instance ≠ 2
      · simp [sync_comment_from_webhook, hsc, hio]
      · cases hfind : find_sync_record_by_jira_key store issue_key source_instance with
        | none => simp [sync_comment_from_webhook, hsc, hio, hfind]
        | some srec =>
          by_cases htik : py_truthy
              (if source_instance = 1 then srec.jira_2_key else srec.jira_1_key) = false
          · simp [sync_comment_from_webhook, hsc, hio, hfind, htik]
          · simp [sync_comment_from_webhook, hsc, hio, hfind, htik, hr]

/-- C3 witness: the theorem applied at a concrete input (a marker comment
arriving as a created event, and an already-synced comment id). -/
theorem sync_comment_loop_suppression_witness :
    ((sync_comment_from_webhook sampleConfig commentEnvSync 7 [("A-1#B-1", pairRecord)] []
        "A-1" "10002" 1 "created").ops = [] ∧
     (sync_comment_from_webhook sampleConfig commentEnvSync 7 [("A-1#B-1", pairRecord)] []
        "A-1" "10002" 1 "created").cstore = []) ∧
    ((sync_comment_from_webhook sampleConfig commentEnvOk 7 [("A-1#B-1", pairRecord)]
        [("A-1#10001#2", commentRecord)] "A-1" "10001" 1 "created").ops = [] ∧
     (sync_comment_from_webhook sampleConfig commentEnvOk 7 [("A-1#B-1", pairRecord)]
        [("A-1#10001#2", commentRecord)] "A-1" "10001" 1 "created").cstore =
       [("A-1#10001#2", commentRecord)]) := by
  constructor
  · exact (sync_comment_loop_suppression sampleConfig commentEnvSync 7 [("A-1#B-1", pairRecord)]
      [] "A-1" "10002" 1 "created").1 rawSyncComment rfl (by decide)
  · exact (sync_comment_loop_suppression sampleConfig commentEnvOk 7 [("A-1#B-1", pairRecord)]
      [("A-1#10001#2", commentRecord)] "A-1" "10001" 1 "created").2 commentRecord rfl
theorem conflict_iff_both_sides_changed (cfg : SyncConfig) (env : ExistingEnv) (now : Nat)
    (store : Store) (source_issue : JiraIssue) (sync_record : SyncRecord)
    (source_instance : Nat) (target_issue : JiraIssue) (sw tw : Nat)
    (hinst : source_instance = 1 ∨ source_instance = 2)
    (htk : py_truthy (if source_instance = 1 then sync_record.jira_2_key
        else sync_record.jira_1_key) = true)
    (hfetch : env.conflict_fetch = Except.ok target_issue)
    (hsw : (if source_instance = 1 then sync_record.jira_1_last_updated
        else sync_record.jira_2_last_updated) = some sw)
    (htw : (if source_instance = 1 then sync_record.jira_2_last_updated
        else sync_record.jira_1_last_updated) = some tw) :
    ((sync_existing_issue cfg env now store source_issue sync_record
        source_instance).conflicts_detected = true ↔
      (sw < source_issue.updated ∧ tw < target_issue.updated)) ∧
    ((sync_existing_issue cfg env now store source_issue sync_record
        source_instance).record.status = SyncStatus.conflict ↔
      (sw < source_issue.updated ∧ tw < target_issue.updated)) ∧
    ((sync_existing_issue cfg env now store source_issue sync_record
        source_instance).conflicts_detected = true →
      (sync_existing_issue cfg env now store source_issue sync_record
        source_instance).record.requires_manual_resolution = true ∧
      (sync_existing_issue cfg env now store source_issue sync_record
        source_instance).record.conflict_details.isSome = true ∧
      (sync_existing_issue cfg env now store source_issue sync_record
        source_instance).store = put_item store (sync_existing_issue cfg env now store
          source_issue sync_record source_instance).record ∧
      (sync_existing_issue cfg env now store source_issue sync_record
        source_instance).success = false ∧
      (sync_existing_issue cfg env now store source_issue sync_record
        source_instance).ops = []) := by
  rcases hinst with rfl | rfl <;>
  · simp at htk hsw htw
    by_cases h1 : sw < source_issue.updated <;> by_cases h2 : tw < target_issue.updated
    · constructor
      · simp [sync_existing_issue, check_for_conflicts, htk, hfetch, hsw, htw, h1, h2]
      · constructor
        · simp [sync_existing_issue, check_for_conflicts, htk, hfetch, hsw, htw, h1, h2]
        · intro _
          refine ⟨?_, ?_, ?_, ?_, ?_⟩ <;>
            simp [sync_existing_issue, check_for_conflicts, htk, hfetch, hsw, htw, h1, h2]
    all_goals
      refine ⟨?_, ?_, ?_⟩
      all_goals
        cases hft : env.target_fetch <;> cases hwr : env.write_raises <;>
          (simp [sync_existing_issue, check_for_conflicts, htk, hfetch, hsw, htw,
             h1, h2, hft, hwr] <;> try (split <;> simp [h1, h2]))

/-- C1 witness: the theorem applied at a concrete conflicting input. -/
theorem conflict_iff_both_sides_changed_witness :
    ((sync_existing_issue sampleConfig conflictEnv 9 [] issueA15 pairRecord
        1).conflicts_detected = true ↔
      (10 < issueA15.updated ∧ 20 < issueB25.updated)) := by
  exact (conflict_iff_both_sides_changed sampleConfig conflictEnv 9 [] issueA15 pairRecord 1
    issueB25 10 20 (Or.inl rfl) (by decide) rfl (by decide) (by decide)).1

/-- C8: on an existing-issue sync with both field changes and a status change
for which the peer offers no transition to the target status name (or the
transition POST raises), the field update is still committed as the only
remote write — the peer issue is never transitioned, so it stays in its prior
status — and the operation is reported as a success. -/
theorem failed_transition_still_success (cfg : SyncConfig) (env : ExistingEnv) (now : Nat)
    (store : Store) (source_issue : JiraIssue) (sync_record : SyncRecord)
    (source_instance : Nat) (tk : String) (target_issue : JiraIssue)
    (hinst : source_instance = 1 ∨ source_instance = 2)
    (htk : (if source_instance = 1 then sync_record.jira_2_key
        else sync_record.jira_1_key) = some tk)
    (htk2 : tk ≠ "")
    (hnoc : (check_for_conflicts env.conflict_fetch now store source_issue sync_record
        source_instance).conflicts_detected = false)
    (hfetch : env.target_fetch = Except.ok target_issue)
    (hwr : env.write_raises = none)
    (hst : cfg.sync_status_transitions = true)
    (hdiff : target_issue.status ≠ source_issue.status)
    (hpay : convert_to_update_payload cfg.sync_assignee target_issue source_issue ≠ [])
    (hcur : env.aenv.tenv.current_fetch.status ≠ source_issue.status)
    (hnotr : env.aenv.tenv.transitions.find?
        (fun t => py_lower t.to_name = py_lower source_issue.status) = none ∨
      env.aenv.tenv.transition_raises = true) :
    (sync_existing_issue cfg env now store source_issue sync_record source_instance).success =
      true ∧
    (sync_existing_issue cfg env now store source_issue sync_record
      source_instance).record.status = SyncStatus.success ∧
    (sync_existing_issue cfg env now store source_issue sync_record source_instance).ops =
      [RemoteOp.updateIssue tk
        (convert_to_update_payload cfg.sync_assignee target_issue source_issue)] := by
  rcases hinst with rfl | rfl <;>
  · simp at htk
    have hpt : py_truthy (some tk) = true := by simp [py_truthy, htk2]
    rcases hnotr with hno | hra
    · refine ⟨?_, ?_, ?_⟩ <;>
        simp [sync_existing_issue, apply_issue_updates, transition_issue_to_status,
          htk, hpt, hnoc, hfetch, hwr, hst, hdiff, hpay, hcur, hno]
    · cases hfind : env.aenv.tenv.transitions.find?
          (fun t => py_lower t.to_name = py_lower source_issue.status) <;>
      refine ⟨?_, ?_, ?_⟩ <;>
        simp [sync_existing_issue, apply_issue_updates, transition_issue_to_status,
          htk, hpt, hnoc, hfetch, hwr, hst, hdiff, hpay, hcur, hra, hfind]

/-- C8 witness: the theorem applied at a concrete input. -/
theorem failed_transition_still_success_witness :
    (sync_existing_issue sampleConfig noTransitionEnv 9 [] issueA pairRecord 1).success =
      true ∧
    (sync_existing_issue sampleConfig noTransitionEnv 9 [] issueA pairRecord
      1).record.status = SyncStatus.success ∧
    (sync_existing_issue sampleConfig noTransitionEnv 9 [] issueA pairRecord 1).ops =
      [RemoteOp.updateIssue "B-1" (convert_to_update_payload false issueBStale issueA)] := by
  exact failed_transition_still_success sampleConfig noTransitionEnv 9 [] issueA pairRecord 1
    "B-1" issueBStale (Or.inl rfl) (by decide) (by decide) (by decide) rfl rfl rfl
    (by decide) (by decide) (by decide) (Or.inl rfl)


theorem wm_le_refl (o : Option Nat) : wm_le o o := fun a h => ⟨a, h, Nat.le_refl a⟩

theorem wm_le_none (n : Option Nat) : wm_le none n := fun a h => by cases h

theorem wm_le_some {o : Option Nat} {b : Nat} (h : ∀ a, o = some a → a ≤ b) :
    wm_le o (some b) := fun a ha => ⟨b, rfl, h a ha⟩

theorem check_for_conflicts_success_eq (conflict_fetch : Except Unit JiraIssue)
    (now : Nat) (store : Store) (source_issue : JiraIssue) (sync_record : SyncRecord)
    (source_instance : Nat) :
    (check_for_conflicts conflict_fetch now store source_issue sync_record
      source_instance).success =
    !(check_for_conflicts conflict_fetch now store source_issue sync_record
      source_instance).conflicts_detected := by
  simp only [check_for_conflicts]
  repeat' split
  all_goals rfl

theorem sync_existing_issue_wm_mono (cfg : SyncConfig) (env : ExistingEnv) (now : Nat)
    (store : Store) (source_issue : JiraIssue) (sync_record : SyncRecord)
    (source_instance : Nat)
    (hsrc : ∀ a, (if source_instance = 1 then sync_record.jira_1_last_updated
        else sync_record.jira_2_last_updated) = some a → a ≤ source_issue.updated)
    (htgt : ∀ a, (if source_instance = 1 then sync_record.jira_2_last_updated
        else sync_record.jira_1_last_updated) = some a → a ≤ env.aenv.post_fetch.updated)
    (hsucc : (sync_existing_issue cfg env now store source_issue sync_record
        source_instance).success = true) :
    wm_le sync_record.jira_1_last_updated
      (sync_existing_issue cfg env now store source_issue sync_record
        source_instance).record.jira_1_last_updated ∧
    wm_le sync_record.jira_2_last_updated
      (sync_existing_issue cfg env now store source_issue sync_record
        source_instance).record.jira_2_last_updated := by
  by_cases hi : source_instance = 1
  · subst hi
    simp at hsrc htgt
    by_cases htk : py_truthy sync_record.jira_2_key = false
    · exfalso
      simp [sync_existing_issue, htk] at hsucc
    · by_cases hcf : (check_for_conflicts env.conflict_fetch now store source_issue
          sync_record 1).conflicts_detected = true
      · exfalso
        have hcs := check_for_conflicts_success_eq env.conflict_fetch now store source_issue
          sync_record 1
        rw [hcf] at hcs
        simp [sync_existing_issue, htk, hcf, hcs] at hsucc
      · constructor <;>
        · simp [sync_existing_issue, htk, hcf]
          repeat' split
          all_goals
            first
              | exact wm_le_some hsrc
              | exact wm_le_some htgt
              | exact wm_le_refl _
  · simp [hi] at hsrc htgt
    by_cases htk : py_truthy sync_record.jira_1_key = false
    · exfalso
      simp [sync_existing_issue, hi, htk] at hsucc
    · by_cases hcf : (check_for_conflicts env.conflict_fetch now store source_issue
          sync_record source_instance).conflicts_detected = true
      · exfalso
        have hcs := check_for_conflicts_success_eq env.conflict_fetch now store source_issue
          sync_record source_instance
        rw [hcf] at hcs
        simp [sync_existing_issue, hi, htk, hcf, hcs] at hsucc
      · constructor <;>
        · simp [sync_existing_issue, hi, htk, hcf]
          repeat' split
          all_goals
            first
              | exact wm_le_some hsrc
              | exact wm_le_some htgt
              | exact wm_le_refl _

/-- C6: across every successful sync operation — existing-issue sync
(including the no-change case), new-issue sync, and manual conflict
resolution — the per-side watermarks `jira_1_last_updated` and
`jira_2_last_updated` are non-decreasing, provided each fetched issue's
`updated` stamp is at least the stored watermark of its side (fetches are
fresh; JIRA `updated` stamps of one issue never move backwards). -/
theorem watermarks_monotone :
    (∀ (cfg : SyncConfig) (env : ExistingEnv) (now : Nat) (store : Store)
        (source_issue : JiraIssue) (sync_record : SyncRecord) (source_instance : Nat),
      (∀ a, (if source_instance = 1 then sync_record.jira_1_last_updated
          else sync_record.jira_2_last_updated) = some a → a ≤ source_issue.updated) →
      (∀ a, (if source_instance = 1 then sync_record.jira_2_last_updated
          else sync_record.jira_1_last_updated) = some a → a ≤ env.aenv.post_fetch.updated) →
      (sync_existing_issue cfg env now store source_issue sync_record
          source_instance).success = true →
      wm_le sync_record.jira_1_last_updated
        (sync_existing_issue cfg env now store source_issue sync_record
          source_instance).record.jira_1_last_updated ∧
      wm_le sync_record.jira_2_last_updated
        (sync_existing_issue cfg env now store source_issue sync_record
          source_instance).record.jira_2_last_updated) ∧
    (∀ (cfg : SyncConfig) (now : Nat) (store : Store) (source_issue : JiraIssue)
        (source_instance : Nat) (create_result : Except String JiraIssue),
      (sync_new_issue cfg now store source_issue source_instance create_result).success =
        true →
      wm_le (if source_instance = 1 then some source_issue.updated else none)
        (sync_new_issue cfg now store source_issue source_instance
          create_result).record.jira_1_last_updated ∧
      wm_le (if source_instance = 1 then none else some source_issue.updated)
        (sync_new_issue cfg now store source_issue source_instance
          create_result).record.jira_2_last_updated) ∧
    (∀ (cfg : SyncConfig) (env : ExistingEnv) (now : Nat) (store : Store)
        (sync_id : String) (dir : SyncDirection) (src : JiraIssue) (rec : SyncRecord)
        (out : SyncOut),
      get_sync_record store sync_id = some rec →
      resolve_conflict_manual cfg env now store sync_id dir (Except.ok src) =
        Except.ok out →
      (∀ a, (if (if dir = SyncDirection.jira_1_to_2 then 1 else 2) = 1
          then rec.jira_1_last_updated else rec.jira_2_last_updated) = some a →
        a ≤ src.updated) →
      (∀ a, (if (if dir = SyncDirection.jira_1_to_2 then 1 else 2) = 1
          then rec.jira_2_last_updated else rec.jira_1_last_updated) = some a →
        a ≤ env.aenv.post_fetch.updated) →
      out.success = true →
      wm_le rec.jira_1_last_updated out.record.jira_1_last_updated ∧
      wm_le rec.jira_2_last_updated out.record.jira_2_last_updated) := by
  refine ⟨sync_existing_issue_wm_mono, ?_, ?_⟩
  · intro cfg now store source_issue source_instance create_result hsucc
    by_cases hi : source_instance = 1
    · subst hi
      cases create_result with
      | error e => simp [sync_new_issue] at hsucc
      | ok t =>
          constructor <;>
          · simp [sync_new_issue]
            first
              | exact wm_le_refl _
              | exact wm_le_none _
    · cases create_result with
      | error e => simp [sync_new_issue, hi] at hsucc
      | ok t =>
          constructor <;>
          · simp [sync_new_issue, hi]
            first
              | exact wm_le_refl _
              | exact wm_le_none _
  · intro cfg env now store sync_id dir src rec out hrec hres hsrc htgt hsucc
    simp only [resolve_conflict_manual, hrec] at hres
    by_cases hst : rec.status ≠ SyncStatus.conflict
    · rw [if_pos hst] at hres
      cases hres
    · rw [if_neg hst] at hres
      by_cases hsk : py_truthy (if (if dir = SyncDirection.jira_1_to_2 then 1 else 2) = 1
          then rec.jira_1_key else rec.jira_2_key) = false
      · rw [if_pos hsk] at hres
        cases hres
      · rw [if_neg hsk] at hres
        rw [Except.ok.injEq] at hres
        subst hres
        exact sync_existing_issue_wm_mono cfg env now store src
          { rec with
            status := SyncStatus.pending,
            requires_manual_resolution := false,
            conflict_details := none }
          (if dir = SyncDirection.jira_1_to_2 then 1 else 2) hsrc htgt hsucc

/-- C6 witness: the existing-issue part of the theorem applied at a concrete
successful sync. -/
theorem watermarks_monotone_witness :
    wm_le pairRecord.jira_1_last_updated
      (sync_existing_issue sampleConfig noTransitionEnv 9 [] issueA pairRecord
        1).record.jira_1_last_updated ∧
    wm_le pairRecord.jira_2_last_updated
      (sync_existing_issue sampleConfig noTransitionEnv 9 [] issueA pairRecord
        1).record.jira_2_last_updated := by
  exact watermarks_monotone.1 sampleConfig noTransitionEnv 9 [] issueA pairRecord 1
    (by intro a ha; simp [pairRecord] at ha; subst ha; decide)
    (by intro a ha; simp [pairRecord] at ha; subst ha; decide)
    (by decide)

/-- C4: contrary to the claim, `should_process_event` accepts only the three
`jira:issue_*` events; `comment_created`, `comment_updated` and
`comment_deleted` are skipped with a 200 "Event skipped" response, and the
webhook handler never routes any event to comment sync. -/
theorem comment_events_not_processed :
    should_process_event "jira:issue_created" = true ∧
    should_process_event "jira:issue_updated" = true ∧
    should_process_event "jira:issue_deleted" = true ∧
    should_process_event "comment_created" = false ∧
    should_process_event "comment_updated" = false ∧
    should_process_event "comment_deleted" = false ∧
    jira_webhook_handler true true ⟨"comment_created", some "A-1"⟩ true =
      ⟨200, "Event skipped", false, false⟩ ∧
    jira_webhook_handler true true ⟨"comment_deleted", some "A-1"⟩ true =
      ⟨200, "Event skipped", false, false⟩ := by
  decide

/-- C2: syncing a brand-new issue persists the provisional record under
sync_id `A-1#unknown` and then persists the canonical record under a *new*
sync_id `A-1#B-1`; the provisional record is never deleted, so two distinct
records carrying `jira_1_key = some "A-1"` remain in the mapping store. -/
theorem new_issue_sync_leaks_provisional_record :
    (sync_new_issue sampleConfig 5 [] issueA 1 (Except.ok issueB)).success = true ∧
    (sync_new_issue sampleConfig 5 [] issueA 1 (Except.ok issueB)).store.map Prod.fst =
      ["A-1#unknown", "A-1#B-1"] ∧
    (sync_new_issue sampleConfig 5 [] issueA 1 (Except.ok issueB)).store.map
      (fun kv => kv.2.jira_1_key) = [some "A-1", some "A-1"] := by
  exact ⟨rfl, rfl, rfl⟩

/-- C5: a deleted event for a previously mirrored comment — its comment sync
record exists with `target_comment_id = some "20002"` — returns success
without issuing any remote delete: the "already synced, skipping" early
return fires before the deletion branch.  Had `_handle_comment_deletion`
been reached, it would have deleted the peer comment. -/
theorem deleted_event_never_deletes_peer :
    find_comment_sync_by_source [("A-1#10001#2", commentRecord)] "A-1" "10001" 2 =
      some commentRecord ∧
    commentRecord.target_comment_id = some "20002" ∧
    sync_comment_from_webhook sampleConfig commentEnvOk 7 [("A-1#B-1", pairRecord)]
        [("A-1#10001#2", commentRecord)] "A-1" "10001" 1 "deleted" =
      ⟨true, [("A-1#10001#2", commentRecord)], [], false⟩ ∧
    handle_comment_deletion commentEnvOk [("A-1#10001#2", commentRecord)]
        "A-1" "10001" 1 "B-1" =
      ⟨true, [("A-1#10001#2", commentRecord)], [RemoteOp.deleteComment "B-1" "20002"], false⟩ := by
  exact ⟨rfl, rfl, rfl, rfl⟩

/-- C10: when the initial source fetch raises a `JiraAPIError`, the `except`
handler reads the local `sync_record` before it has been assigned, so an
`UnboundLocalError` propagates to the caller: no failed `SyncResult` is
returned and the store is untouched. -/
theorem source_fetch_error_escapes_handler (cfg : SyncConfig) (env : WebhookEnv) (now : Nat)
    (store : Store) (issue_key : String) (source_instance : Nat) (e : String)
    (hinst : source_instance = 1 ∨ source_instance = 2)
    (hfetch : env.source_fetch = Except.error e) :
    sync_issue_from_webhook cfg env now store issue_key source_instance =
      PyOutcome.unbound_local_error store := by
  rcases hinst with h | h <;> subst h <;> simp [sync_issue_from_webhook, hfetch]

/-- C10 witness: the theorem applied at a concrete input. -/
theorem source_fetch_error_escapes_handler_witness :
    sync_issue_from_webhook sampleConfig failingFetchEnv 3 [] "A-1" 1 =
      PyOutcome.unbound_local_error [] := by
  exact source_fetch_error_escapes_handler sampleConfig failingFetchEnv 3 [] "A-1" 1 "boom"
    (Or.inl rfl) rfl

end JiraSync
